import Mathlib

/-!
Verification of the response-normalization core of the Lyzr Style
Transformer repository.

The source under scrutiny is the `extractImageUrl` and
`extractTransformationDetails` functions and the `handleTransform`
workflow of `src/unnamed/part_000`, together with the duplicated
(simplified) workflow of `src/app/page.tsx`.

The agent response envelope is untyped JavaScript data; we embed it as
the inductive type `JVal` below.  JavaScript truthiness, property
access, `||` chains, the URL-pattern regular expression of the source
and `JSON.stringify` are all given explicit executable models.  The
`JSON.parse` builtin used on `raw_response` is treated as an external
collaborator and passed as an explicit `parse` function (exceptions are
modelled as `none`).
-/

/-- Untyped JSON-like value, the shallow embedding of the JavaScript
data the extractor works on.  `num` uses `Int` (the source never
performs arithmetic on envelope numbers; only truthiness matters, and
`NaN` never arises from `JSON.parse`d data compared here).  `none` at
use sites stands for JavaScript `undefined` (an absent property). -/
inductive JVal where
  | str : String → JVal
  | num : Int → JVal
  | bool : Bool → JVal
  | null : JVal
  | arr : List JVal → JVal
  | obj : List (String × JVal) → JVal

/-- JavaScript property access `v[k]`: defined only on objects; on
arrays, strings, numbers, booleans and `null` the string keys probed by
the source (`"artifact_files"`, `"url"`, ...) are always absent, so the
access yields `undefined` (`none`), which this clause reproduces. -/
def getF : JVal → String → Option JVal
  | JVal.obj kvs, k => (kvs.find? (fun p => p.1 == k)).map Prod.snd
  | _, _ => none

/-- JavaScript truthiness of a value. -/
def truthy : JVal → Bool
  | JVal.str s => s != ""
  | JVal.num n => n != 0
  | JVal.bool b => b
  | JVal.null => false
  | JVal.arr _ => true
  | JVal.obj _ => true

/-- Truthiness of a possibly-absent value (`undefined` is falsy). -/
def otruthy : Option JVal → Bool
  | some v => truthy v
  | none => false

/-- The source idiom `if (x) return x` applied to a possibly-absent
value: keep it exactly when it is truthy. -/
def keep (o : Option JVal) : Option JVal :=
  match o with
  | some v => if truthy v then some v else none
  | none => none

/-- Sequencing of two candidate lookups: the second runs only when the
first produced nothing (the source's consecutive `if (...) return`
statements, and `a || b` on lookups that are `none`/truthy). -/
def orElseJ (a b : Option JVal) : Option JVal :=
  match a with
  | some v => some v
  | none => b

/-- `Array.isArray(v) && v.length > 0` on a possibly-absent value. -/
def isNonEmptyArr : Option JVal → Bool
  | some (JVal.arr l) => 0 < l.length
  | _ => false

/-- `v[0]` on a possibly-absent value known to be probed as an array. -/
def arrHead : Option JVal → Option JVal
  | some (JVal.arr l) => l.head?
  | _ => none

/-- `v[0]` defaulting to `null`; used only under an `isNonEmptyArr`
guard, where the element exists. -/
def arrHeadD (o : Option JVal) : JVal :=
  (arrHead o).getD JVal.null

/-- The values `mo[key]` for `key of Object.keys(mo)`, in insertion
order.  For arrays these are the elements; for strings `Object.keys`
yields character positions whose values are one-character strings,
never arrays, so modelling them as `[]` is indistinguishable to the
array-shaped scan below; numbers, booleans and `null` have no own
enumerable keys. -/
def valuesOf : JVal → List JVal
  | JVal.obj kvs => kvs.map Prod.snd
  | JVal.arr l => l
  | _ => []

/-- Models the source pattern, repeated at four sites of
`extractImageUrl` (`src/unnamed/part_000` lines 36-41, 76-81, 95-100,
102-107):
`if (x?.artifact_files) { const files = x.artifact_files;
   if (Array.isArray(files) && files.length > 0 && files[0]?.file_url)
     return files[0].file_url }`.
The outer truthiness test is absorbed: a JavaScript array is always
truthy, and a non-array or falsy value fails `Array.isArray` anyway. -/
def artifactFilesUrl (mo : Option JVal) : Option JVal :=
  let af := mo.bind (fun m => getF m "artifact_files")
  if isNonEmptyArr af then keep (arrHead af |>.bind (fun f => getF f "file_url"))
  else none

/-! ## The URL-pattern regular expressions

`src/unnamed/part_000` line 87 applies
`/https?:\/\/[^\s"'<>]+\.(png|jpg|jpeg|webp|gif|svg|bmp)/i` to
`response.message`, and line 110 applies
`/https?:\/\/[^\s"'<>\\]+\.(png|jpg|jpeg|webp|gif)/i` to a
non-JSON `raw_response`.  `String.prototype.match` without the `g`
flag returns the leftmost match, with backtracking semantics: the
greedy body `[^...]+` consumes the maximal run of allowed characters
and then gives characters back from the right until `\.(ext)` matches,
so the chosen dot is the rightmost one in the run that is followed by
one of the extensions (no extension is a prefix of another, so the
order of the alternation cannot matter).  `match[0]` is the full
matched substring in original case.  The functions below implement
exactly this. -/

/-- The whitespace class `\s` of JavaScript regular expressions. -/
def jsWhitespace (c : Char) : Bool :=
  let n := c.toNat
  n == 9 || n == 10 || n == 11 || n == 12 || n == 13 || n == 32 ||
  n == 160 || n == 0x1680 || (decide (0x2000 ≤ n) && decide (n ≤ 0x200A)) ||
  n == 0x2028 || n == 0x2029 || n == 0x202F || n == 0x205F ||
  n == 0x3000 || n == 0xFEFF

/-- The character class `[^\s"'<>]` of the `response.message` pattern,
as an exclusion test (character codes 34 `"`, 39 `'`, 60 `<`, 62 `>`). -/
def banned4 (c : Char) : Bool :=
  jsWhitespace c || c.toNat == 34 || c.toNat == 39 || c.toNat == 60 || c.toNat == 62

/-- The character class `[^\s"'<>\\]` of the `raw_response` pattern
(additionally excludes the backslash, code 92). -/
def banned5 (c : Char) : Bool :=
  banned4 c || c.toNat == 92

/-- Extension alternation of the `response.message` pattern. -/
def extList4 : List String := ["png", "jpg", "jpeg", "webp", "gif", "svg", "bmp"]

/-- Extension alternation of the `raw_response` pattern: no `svg`,
no `bmp`. -/
def extList5 : List String := ["png", "jpg", "jpeg", "webp", "gif"]

/-- Case-insensitive test that `cs` starts with the (lowercase) pattern
characters `ps`. -/
def startsWithCI : List Char → List Char → Bool
  | [], _ => true
  | _ :: _, [] => false
  | p :: ps, c :: cs => (c.toLower == p) && startsWithCI ps cs

/-- Try the extension alternation right after a dot: the number of
characters matched, if one of the extensions matches case-insensitively. -/
def extMatch (exts : List String) (cs : List Char) : Option Nat :=
  exts.findSome? (fun e => if startsWithCI e.toList cs then some e.toList.length else none)

/-- Maximal run of characters not excluded by `banned`, together with
the rest: the extent first consumed by the greedy body `[^...]+`. -/
def takeRun (banned : Char → Bool) : List Char → List Char × List Char
  | [] => ([], [])
  | c :: cs =>
    if banned c then ([], c :: cs)
    else
      let p := takeRun banned cs
      (c :: p.1, p.2)

/-- Backtracking split of the greedy run: the rightmost dot position
`b` (0-based in the given list) that is followed by a matching
extension of length `e`.  Trying later dots first reproduces the
regex engine giving back characters from the right. -/
def bestSplit (exts : List String) : List Char → Option (Nat × Nat)
  | [] => none
  | c :: cs =>
    match bestSplit exts cs with
    | some p => some (p.1 + 1, p.2)
    | none => if c == '.' then (extMatch exts cs).map (fun e => (0, e)) else none

/-- Strip a (lowercase) pattern prefix case-insensitively. -/
def stripCI : List Char → List Char → Option (List Char)
  | [], cs => some cs
  | _ :: _, [] => none
  | p :: ps, c :: cs => if c.toLower == p then stripCI ps cs else none

/-- Length of the regex match anchored at the start of `cs` for a
fixed scheme prefix `pre`: strip the prefix, take the greedy run, find
the backtracking split; the body must be non-empty (`+`), hence
`0 < b`. -/
def anchoredLen (banned : Char → Bool) (exts : List String) (pre cs : List Char) : Option Nat :=
  match stripCI pre cs with
  | none => none
  | some rest =>
    match bestSplit exts (takeRun banned rest).1 with
    | some p => if 0 < p.1 then some (pre.length + p.1 + 1 + p.2) else none
    | none => none

/-- Length of the regex match anchored at the start of `cs`, if any:
`https?` is greedy, so `https://` is tried before `http://`. -/
def matchLen (banned : Char → Bool) (exts : List String) (cs : List Char) : Option Nat :=
  match anchoredLen banned exts "https://".toList cs with
  | some n => some n
  | none => anchoredLen banned exts "http://".toList cs

/-- Leftmost match of the URL pattern: the first start position at
which the anchored match succeeds, returning the matched characters. -/
def firstUrlMatch (banned : Char → Bool) (exts : List String) : List Char → Option (List Char)
  | [] => none
  | c :: cs =>
    match matchLen banned exts (c :: cs) with
    | some n => some ((c :: cs).take n)
    | none => firstUrlMatch banned exts cs

/-- `s.match(pattern)?.[0]` for the two URL patterns of the source. -/
def urlScan (banned : Char → Bool) (exts : List String) (s : String) : Option String :=
  (firstUrlMatch banned exts s.toList).map (fun l => String.mk l)

/-! ## extractImageUrl (src/unnamed/part_000 lines 34-116)

The function is an ordered cascade of five strategies; each `path`
definition below transcribes one numbered block of the source.  A
`return` inside a block ends the whole function, so each path yields
`Option _`: `some` means the block executed a `return` (Path 3 can
`return null`, hence its `Option (Option JVal)` type), `none` means
control fell through to the next block. -/

/-- Path 1 (lines 35-41): `module_outputs.artifact_files[0].file_url`. -/
def path1 (result : JVal) : Option JVal :=
  artifactFilesUrl (getF result "module_outputs")

/-- One step of the Path-2 key scan (lines 50-58): a value that is a
non-empty array whose element 0 carries a truthy `file_url`, else a
truthy `url`. -/
def scanVal (val : JVal) : Option JVal :=
  match val with
  | JVal.arr l =>
    if 0 < l.length then
      orElseJ (keep (l.head?.bind (fun f => getF f "file_url")))
              (keep (l.head?.bind (fun f => getF f "url")))
    else none
  | _ => none

/-- The Path-2 scan over `Object.keys(mo)` in insertion order. -/
def scanKeys : List JVal → Option JVal
  | [] => none
  | v :: rest => orElseJ (scanVal v) (scanKeys rest)

/-- Path 2 (lines 44-59): other structures under `module_outputs` —
direct `url` / `image_url` fields, else the key scan. -/
def path2 (result : JVal) : Option JVal :=
  match getF result "module_outputs" with
  | some mo =>
    if truthy mo then
      orElseJ (keep (getF mo "url"))
        (orElseJ (keep (getF mo "image_url")) (scanKeys (valuesOf mo)))
    else none
  | none => none

/-- First truthy value among the given keys of `r`, the source's
consecutive `if (r.k) return r.k` probes. -/
def firstTruthyKey (r : JVal) : List String → Option JVal
  | [] => none
  | k :: ks =>
    match keep (getF r k) with
    | some v => some v
    | none => firstTruthyKey r ks

/-- The six direct keys probed under `response.result`, in source
order (lines 65-70). -/
def resultKeys : List String :=
  ["image_url", "url", "image", "output_image", "generated_image", "file_url"]

/-- The non-empty `artifact_files` branch of Path 3 (lines 72-74): it
ends the function with `file_url || url || null` — even with `null`. -/
def path3arr (af : Option JVal) : Option (Option JVal) :=
  if isNonEmptyArr af then
    some (orElseJ (keep (arrHead af |>.bind (fun f => getF f "file_url")))
                  (keep (arrHead af |>.bind (fun f => getF f "url"))))
  else none

/-- The nested `result.module_outputs` probe of Path 3 (lines 75-81):
a hit ends the function; a miss falls through to Path 4. -/
def path3mo (mo : Option JVal) : Option (Option JVal) :=
  match artifactFilesUrl mo with
  | some v => some (some v)
  | none => none

/-- The part of Path 3 after the six direct keys all failed: the
non-empty `artifact_files` branch, else the nested `module_outputs`
probe. -/
def path3rest (r : List (String × JVal)) : Option (Option JVal) :=
  match path3arr (getF (JVal.obj r) "artifact_files") with
  | some v => some v
  | none => path3mo (getF (JVal.obj r) "module_outputs")

/-- Path 3 (lines 62-82): `response.result`, when it is a (non-null)
object: the six direct keys in order, else `path3rest`.
`typeof x === 'object'` also admits arrays, on which every probed key
is absent, so restricting the match to `obj` is behaviourally
identical. -/
def path3 (result : JVal) : Option (Option JVal) :=
  match (getF result "response").bind (fun x => getF x "result") with
  | some (JVal.obj r) =>
    match firstTruthyKey (JVal.obj r) resultKeys with
    | some v => some (some v)
    | none => path3rest r
  | _ => none

/-- Path 4 (lines 84-89): URL-pattern scan of `response.message` when
it is a truthy string. -/
def path4 (result : JVal) : Option JVal :=
  match (getF result "response").bind (fun x => getF x "message") with
  | some (JVal.str s) =>
    if s != "" then (urlScan banned4 extList4 s).map JVal.str else none
  | _ => none

/-- Path 5 (lines 91-113): `raw_response`, when a truthy string: parse
as JSON; on success probe `module_outputs.artifact_files[0].file_url`
then `response.module_outputs.artifact_files[0].file_url` (and nothing
else — a successful parse never falls back to the pattern scan); on
parse failure, the restricted URL-pattern scan. -/
def path5 (parse : String → Option JVal) (result : JVal) : Option JVal :=
  match getF result "raw_response" with
  | some (JVal.str s) =>
    if s != "" then
      match parse s with
      | some raw =>
        orElseJ (artifactFilesUrl (getF raw "module_outputs"))
                (artifactFilesUrl ((getF raw "response").bind (fun x => getF x "module_outputs")))
      | none => (urlScan banned5 extList5 s).map JVal.str
    else none
  | _ => none

/-- `extractImageUrl` (src/unnamed/part_000 lines 34-116): the ordered
cascade, returning on the first block that executes a `return`
(including Path 3's explicit `return null`), else `null` (`none`). -/
def extractImageUrl (parse : String → Option JVal) (result : JVal) : Option JVal :=
  match path1 result with
  | some v => some v
  | none =>
    match path2 result with
    | some v => some v
    | none =>
      match path3 result with
      | some r => r
      | none =>
        match path4 result with
        | some v => some v
        | none => path5 parse result

/-! ## extractTransformationDetails (src/unnamed/part_000 lines 121-149) -/

/-- Hexadecimal digit for the `\u00XX` escapes of `JSON.stringify`. -/
def hexDigit (n : Nat) : Char :=
  if n < 10 then Char.ofNat (48 + n) else Char.ofNat (87 + n)

/-- Four-digit hexadecimal rendering for `\uXXXX`. -/
def hex4 (n : Nat) : String :=
  String.mk [hexDigit (n / 4096 % 16), hexDigit (n / 256 % 16),
             hexDigit (n / 16 % 16), hexDigit (n % 16)]

/-- Escaping of one character inside a `JSON.stringify`d string. -/
def escChar (c : Char) : String :=
  if c == '"' then "\\\""
  else if c == '\\' then "\\\\"
  else if c == '\n' then "\\n"
  else if c == '\t' then "\\t"
  else if c == '\r' then "\\r"
  else if c.toNat == 8 then "\\b"
  else if c.toNat == 12 then "\\f"
  else if c.toNat < 32 then "\\u" ++ hex4 c.toNat
  else String.singleton c

/-- `JSON.stringify` string escaping. -/
def jsonEscape (s : String) : String :=
  String.join (s.toList.map escChar)

mutual

/-- Model of the `JSON.stringify` builtin on envelope values (no
`undefined` occurs inside a `JVal`, so the value serialization is
total). -/
def jstringify : JVal → String
  | JVal.str s => "\"" ++ jsonEscape s ++ "\""
  | JVal.num n => toString n
  | JVal.bool b => cond b "true" "false"
  | JVal.null => "null"
  | JVal.arr l => "[" ++ jstringifyList l ++ "]"
  | JVal.obj kvs => "\x7b" ++ jstringifyObj kvs ++ "\x7d"

/-- Comma-separated serialization of array elements. -/
def jstringifyList : List JVal → String
  | [] => ""
  | [v] => jstringify v
  | v :: w :: rest => jstringify v ++ "," ++ jstringifyList (w :: rest)

/-- Comma-separated serialization of object entries. -/
def jstringifyObj : List (String × JVal) → String
  | [] => ""
  | [(k, v)] => "\"" ++ jsonEscape k ++ "\":" ++ jstringify v
  | (k, v) :: p :: rest =>
    "\"" ++ jsonEscape k ++ "\":" ++ jstringify v ++ "," ++ jstringifyObj (p :: rest)

end

/-- The transformation-details record.  The TypeScript record declares
three string fields; the fallback branch of the source can in fact
store a non-string truthy `response.message`, so the fields are
embedded as raw `JVal`s (the mapping branch always stores strings). -/
structure TDetails where
  transformation_description : JVal
  style_elements_applied : JVal
  color_palette_used : JVal

/-- A JavaScript `||` chain over candidate keys ending in `|| ''`:
first truthy value of the keys of `r`, defaulting to the empty
string. -/
def jsOrChain (r : JVal) : List String → JVal
  | [] => JVal.str ""
  | k :: ks =>
    match keep (getF r k) with
    | some v => v
    | none => jsOrChain r ks

/-- Candidate source keys for `transformation_description` (line 129). -/
def descKeys : List String := ["transformation_description", "description", "text", "message"]

/-- Candidate source keys for `style_elements_applied` (line 130). -/
def styleKeys : List String := ["style_elements_applied", "styles", "elements"]

/-- Candidate source keys for `color_palette_used` (line 131). -/
def colorKeys : List String := ["color_palette_used", "colors", "palette"]

/-- `typeof v === 'string' ? v : JSON.stringify(v)` (lines 134-136). -/
def serializeIfNeeded (v : JVal) : JVal :=
  match v with
  | JVal.str s => JVal.str s
  | v => JVal.str (jstringify v)

/-- The `response.result` mapping branch of
`extractTransformationDetails` (lines 126-139): derive the three
fields by `||` chains, return the serialized record iff at least one
derived value is truthy.  As in Path 3, `typeof x === 'object'` admits
arrays and excludes `null`; on an array every candidate key is absent,
all three chains default to the falsy `''`, and the branch yields
nothing, so matching `obj` only is behaviourally identical. -/
def detailsFromResult (result : JVal) : Option TDetails :=
  match (getF result "response").bind (fun x => getF x "result") with
  | some (JVal.obj r) =>
    let desc := jsOrChain (JVal.obj r) descKeys
    let styles := jsOrChain (JVal.obj r) styleKeys
    let colors := jsOrChain (JVal.obj r) colorKeys
    if truthy desc || truthy styles || truthy colors then
      some ⟨serializeIfNeeded desc, serializeIfNeeded styles, serializeIfNeeded colors⟩
    else none
  | _ => none

/-- The fallback branch (lines 140-147): a record carrying a truthy
`response.message` as the description and empty strings otherwise. -/
def detailsFallback (result : JVal) : Option TDetails :=
  match (getF result "response").bind (fun x => getF x "message") with
  | some m => if truthy m then some ⟨m, JVal.str "", JVal.str ""⟩ else none
  | none => none

/-- `extractTransformationDetails` (lines 121-149): the mapping branch,
else the `response.message` fallback, else `null`. -/
def extractTransformationDetails (result : JVal) : Option TDetails :=
  match detailsFromResult result with
  | some d => some d
  | none => detailsFallback result

/-! ## The transform workflow

`handleTransform` of `src/unnamed/part_000` (lines 336-391) and its
simplified duplicate in `src/app/page.tsx` (lines 215-272).  The
network collaborators `uploadFiles` and `callAIAgent` are external
black boxes: the upload result is passed in as a value and the agent
as a function from the outgoing message and asset id to the response
envelope, so "the agent is never invoked" is expressible as
insensitivity of the outcome to that function.  A thrown `Error` is
modelled by the `failed` outcome carrying the value passed to the
`Error` constructor. -/

/-- Error message of the upload-failure throw (line 348). -/
def uploadFailMsg : String := "Failed to upload image"

/-- Error message of the agent-failure throw (line 364). -/
def transformFailMsg : String := "Transformation failed"

/-- Error message of the extraction-failure throw (line 374). -/
def noImageMsg : String := "No image was generated. Please try again."

/-- `a || 'd'` on a possibly-absent value with a string default. -/
def jsOrStr (a : Option JVal) (d : String) : JVal :=
  match keep a with
  | some v => v
  | none => JVal.str d

/-- `a || b || 'd'` with a string default (the agent-failure message
chain `result.error || result.response?.message || '...'`). -/
def jsOr2Str (a b : Option JVal) (d : String) : JVal :=
  match keep a with
  | some v => v
  | none => jsOrStr b d

/-- The fixed brand-style instruction (line 355). -/
def brandMessage : String :=
  "Transform this uploaded image into Lyzr brand style using the company color palette (deep purples #7458e8, vibrant blues, electric accents) with clean gradients and modern tech-forward aesthetic."

/-- Drop the longest prefix of characters satisfying `p`. -/
def dropLeading (p : Char → Bool) : List Char → List Char
  | [] => []
  | c :: cs => if p c then dropLeading p cs else c :: cs

/-- Model of `String.prototype.trim`: remove leading and trailing
JavaScript white space (the `\s` class, which is what the JavaScript
specification uses for `trim` too, up to the line-terminator codes
already included in `jsWhitespace`). -/
def jsTrim (s : String) : String :=
  String.mk ((dropLeading jsWhitespace (dropLeading jsWhitespace s.toList).reverse).reverse)

/-- The outgoing agent message (lines 355-358): the fixed instruction,
with the trimmed style note appended only when it is non-blank. -/
def buildMessage (styleNote : String) : String :=
  if jsTrim styleNote != "" then
    brandMessage ++ " Additional style direction: " ++ jsTrim styleNote
  else brandMessage

/-- Outcome of one transform attempt: the terminal session state. -/
inductive TransformOutcome where
  | noFile : TransformOutcome
  | failed : JVal → TransformOutcome
  | succeeded : JVal → Option TDetails → TransformOutcome

/-- `handleTransform` of `src/unnamed/part_000` (lines 336-391) as a
function of the collaborator results: guard on a selected file, the
upload-result check, the agent call on the built message and first
asset id, the success-flag check, then extraction; every `throw`
becomes a `failed` outcome carrying the `Error` argument. -/
def handleTransform (parse : String → Option JVal) (agent : String → JVal → JVal)
    (selectedFile : Bool) (styleNote : String) (uploadResult : JVal) : TransformOutcome :=
  if !selectedFile then TransformOutcome.noFile
  else if !otruthy (getF uploadResult "success") || !isNonEmptyArr (getF uploadResult "asset_ids") then
    TransformOutcome.failed (jsOrStr (getF uploadResult "error") uploadFailMsg)
  else
    let assetId := arrHeadD (getF uploadResult "asset_ids")
    let result := agent (buildMessage styleNote) assetId
    if !otruthy (getF result "success") then
      TransformOutcome.failed
        (jsOr2Str (getF result "error") ((getF result "response").bind (fun x => getF x "message"))
          transformFailMsg)
    else
      match extractImageUrl parse result with
      | some url => TransformOutcome.succeeded url (extractTransformationDetails result)
      | none => TransformOutcome.failed (JVal.str noImageMsg)

/-! ## The duplicated extraction step of src/app/page.tsx -/

/-- Outcome of the image-extraction step alone: either a published
result-image value (whose `Option` records that `page.tsx` can publish
an absent `file_url`) or the thrown error message. -/
inductive ExtractOutcome where
  | published : Option JVal → ExtractOutcome
  | failed : String → ExtractOutcome

/-- The extraction step of `src/app/page.tsx` `handleTransform`
(lines 246-252): publish `module_outputs.artifact_files[0].file_url`
when `artifact_files` is a non-empty array — without checking that
`file_url` is present — else throw. -/
def pageExtractStep (result : JVal) : ExtractOutcome :=
  let artifactFiles := (getF result "module_outputs").bind (fun m => getF m "artifact_files")
  if isNonEmptyArr artifactFiles then
    ExtractOutcome.published ((arrHead artifactFiles).bind (fun f => getF f "file_url"))
  else ExtractOutcome.failed noImageMsg

/-- The extraction step of `src/unnamed/part_000` `handleTransform`
(lines 367-375): publish the result of `extractImageUrl`, else throw
the same message. -/
def mainExtractStep (parse : String → Option JVal) (result : JVal) : ExtractOutcome :=
  match extractImageUrl parse result with
  | some v => ExtractOutcome.published (some v)
  | none => ExtractOutcome.failed noImageMsg

/-- A parse oracle for envelopes that carry no `raw_response` (on which
the oracle is never consulted) and for non-JSON raw strings. -/
def parseNone : String → Option JVal := fun _ => none

/-! ## Combinator lemmas -/

/-- A value kept by `keep` is truthy. -/
theorem keep_truthy {o : Option JVal} {v : JVal} (h : keep o = some v) : truthy v = true := by
  cases o with
  | none => simp [keep] at h
  | some w =>
    simp only [keep] at h
    by_cases hw : truthy w = true
    · rw [if_pos hw] at h
      injection h with h2
      rw [← h2]
      exact hw
    · rw [if_neg hw] at h
      exact Option.noConfusion h

/-- A sequenced lookup that produced a value got it from one side. -/
theorem orElseJ_some {a b : Option JVal} {v : JVal} (h : orElseJ a b = some v) :
    a = some v ∨ b = some v := by
  cases a with
  | some w => left; simpa [orElseJ] using h
  | none => right; simpa [orElseJ] using h

/-- A non-empty array is recognised by `isNonEmptyArr`. -/
theorem isNonEmptyArr_cons {x : JVal} {l : List JVal} :
    isNonEmptyArr (some (JVal.arr (x :: l))) = true := by
  simp [isNonEmptyArr]

/-- An empty array is rejected by `isNonEmptyArr`. -/
theorem isNonEmptyArr_nil : isNonEmptyArr (some (JVal.arr [])) = false := rfl

/-- Head of a non-empty embedded array. -/
theorem arrHead_cons {x : JVal} {l : List JVal} :
    arrHead (some (JVal.arr (x :: l))) = some x := rfl

/-- The artifact-files probe only ever returns a truthy value. -/
theorem artifactFilesUrl_truthy {mo : Option JVal} {v : JVal}
    (h : artifactFilesUrl mo = some v) : truthy v = true := by
  simp only [artifactFilesUrl] at h
  split at h
  · exact keep_truthy h
  · exact Option.noConfusion h

/-- One Path-2 scan step only ever returns a truthy value. -/
theorem scanVal_truthy {val v : JVal} (h : scanVal val = some v) : truthy v = true := by
  unfold scanVal at h
  split at h
  · split at h
    · rcases orElseJ_some h with h1 | h1 <;> exact keep_truthy h1
    · exact Option.noConfusion h
  · exact Option.noConfusion h

/-- The Path-2 key scan only ever returns a truthy value. -/
theorem scanKeys_truthy : ∀ {l : List JVal} {v : JVal}, scanKeys l = some v → truthy v = true := by
  intro l
  induction l with
  | nil => intro v h; simp [scanKeys] at h
  | cons x xs ih =>
    intro v h
    simp only [scanKeys] at h
    rcases orElseJ_some h with h1 | h1
    · exact scanVal_truthy h1
    · exact ih h1

/-- Path 1 only ever returns a truthy value. -/
theorem path1_truthy {e v : JVal} (h : path1 e = some v) : truthy v = true :=
  artifactFilesUrl_truthy h

/-- Path 2 only ever returns a truthy value. -/
theorem path2_truthy {e v : JVal} (h : path2 e = some v) : truthy v = true := by
  unfold path2 at h
  split at h
  · split at h
    · rcases orElseJ_some h with h1 | h1
      · exact keep_truthy h1
      · rcases orElseJ_some h1 with h2 | h2
        · exact keep_truthy h2
        · exact scanKeys_truthy h2
    · exact Option.noConfusion h
  · exact Option.noConfusion h

/-- The consecutive key probes only ever return a truthy value. -/
theorem firstTruthyKey_truthy {r v : JVal} :
    ∀ {ks : List String}, firstTruthyKey r ks = some v → truthy v = true := by
  intro ks
  induction ks with
  | nil => intro h; simp [firstTruthyKey] at h
  | cons k ks ih =>
    intro h
    simp only [firstTruthyKey] at h
    split at h
    · injection h with h2
      rw [← h2]
      exact keep_truthy (by assumption)
    · exact ih h

/-- A value returned by the Path-3 `artifact_files` branch (other than
its explicit `null`) is truthy. -/
theorem path3arr_truthy {af : Option JVal} {v : JVal}
    (h : path3arr af = some (some v)) : truthy v = true := by
  unfold path3arr at h
  split at h
  · injection h with h2
    rcases orElseJ_some h2 with h1 | h1 <;> exact keep_truthy h1
  · exact Option.noConfusion h

/-- A value returned by the nested `module_outputs` probe is truthy. -/
theorem path3mo_truthy {mo : Option JVal} {v : JVal}
    (h : path3mo mo = some (some v)) : truthy v = true := by
  unfold path3mo at h
  split at h
  · injection h with h2
    injection h2 with h3
    rw [← h3]
    exact artifactFilesUrl_truthy (by assumption)
  · exact Option.noConfusion h

/-- A value returned after the six direct keys failed is truthy. -/
theorem path3rest_truthy {r : List (String × JVal)} {v : JVal}
    (h : path3rest r = some (some v)) : truthy v = true := by
  unfold path3rest at h
  split at h
  · injection h with h2
    exact path3arr_truthy (by rw [← h2] at *; assumption)
  · exact path3mo_truthy h

/-- A value returned (other than the explicit `null`) by Path 3 is
truthy. -/
theorem path3_truthy {e v : JVal} (h : path3 e = some (some v)) : truthy v = true := by
  unfold path3 at h
  split at h
  · split at h
    · injection h with h2
      injection h2 with h3
      rw [← h3]
      exact firstTruthyKey_truthy (by assumption)
    · exact path3rest_truthy h
  · exact Option.noConfusion h

/-- An anchored regex match has positive length. -/
theorem anchoredLen_pos {banned : Char → Bool} {exts : List String} {pre cs : List Char} {n : Nat}
    (h : anchoredLen banned exts pre cs = some n) : 0 < n := by
  unfold anchoredLen at h
  split at h
  · exact Option.noConfusion h
  · split at h
    · split at h
      · injection h with h2
        omega
      · exact Option.noConfusion h
    · exact Option.noConfusion h

/-- A regex match has positive length. -/
theorem matchLen_pos {banned : Char → Bool} {exts : List String} {cs : List Char} {n : Nat}
    (h : matchLen banned exts cs = some n) : 0 < n := by
  unfold matchLen at h
  split at h
  · injection h with h2
    rw [← h2]
    exact anchoredLen_pos (by assumption)
  · exact anchoredLen_pos h

/-- The leftmost URL match is never the empty character list. -/
theorem firstUrlMatch_ne_nil {banned : Char → Bool} {exts : List String} :
    ∀ {l m : List Char}, firstUrlMatch banned exts l = some m → m ≠ [] := by
  intro l
  induction l with
  | nil => intro m h; simp [firstUrlMatch] at h
  | cons c cs ih =>
    intro m h
    simp only [firstUrlMatch] at h
    split at h
    · injection h with h2
      rw [← h2]
      have hn := matchLen_pos (by assumption)
      cases hn' : ‹Nat› with
      | zero => omega
      | succ k => simp [hn', List.take_succ_cons]
    · exact ih h

/-- A URL-pattern match is never the empty string. -/
theorem urlScan_ne_empty {banned : Char → Bool} {exts : List String} {s m : String}
    (h : urlScan banned exts s = some m) : m ≠ "" := by
  unfold urlScan at h
  cases hf : firstUrlMatch banned exts s.toList with
  | none => rw [hf] at h; exact Option.noConfusion h
  | some l =>
    rw [hf] at h
    injection h with h2
    rw [← h2]
    have hl := firstUrlMatch_ne_nil hf
    intro hc
    exact hl (by simpa using congrArg String.data hc)

/-- Path 4 only ever returns a truthy value. -/
theorem path4_truthy {e v : JVal} (h : path4 e = some v) : truthy v = true := by
  unfold path4 at h
  split at h
  · split at h
    · cases hu : urlScan banned4 extList4 ‹String› with
      | none => rw [hu] at h; exact Option.noConfusion h
      | some m =>
        rw [hu] at h
        injection h with h2
        rw [← h2]
        simpa [truthy, bne_iff_ne] using urlScan_ne_empty hu
    · exact Option.noConfusion h
  · exact Option.noConfusion h

/-- Path 5 only ever returns a truthy value. -/
theorem path5_truthy {parse : String → Option JVal} {e v : JVal}
    (h : path5 parse e = some v) : truthy v = true := by
  unfold path5 at h
  split at h
  · split at h
    · split at h
      · rcases orElseJ_some h with h1 | h1 <;> exact artifactFilesUrl_truthy h1
      · cases hu : urlScan banned5 extList5 ‹String› with
        | none => rw [hu] at h; exact Option.noConfusion h
        | some m =>
          rw [hu] at h
          injection h with h2
          rw [← h2]
          simpa [truthy, bne_iff_ne] using urlScan_ne_empty hu
    · exact Option.noConfusion h
  · exact Option.noConfusion h

/-- Any value returned by `extractImageUrl` is truthy. -/
theorem extractImageUrl_truthy {parse : String → Option JVal} {e v : JVal}
    (h : extractImageUrl parse e = some v) : truthy v = true := by
  unfold extractImageUrl at h
  split at h
  · injection h with h2
    rw [← h2]
    exact path1_truthy (by assumption)
  · split at h
    · injection h with h2
      rw [← h2]
      exact path2_truthy (by assumption)
    · split at h
      · exact path3_truthy (by rw [← h]; assumption)
      · split at h
        · injection h with h2
          rw [← h2]
          exact path4_truthy (by assumption)
        · exact path5_truthy h

/-! ## Cascade lemmas -/

/-- A Path-1 hit decides the whole cascade, whatever the lower
strategies would have produced. -/
theorem extract_of_path1 {parse : String → Option JVal} {e v : JVal}
    (h : path1 e = some v) : extractImageUrl parse e = some v := by
  unfold extractImageUrl
  rw [h]

/-- Path 1 hit computed from the envelope shape:
`module_outputs.artifact_files` a non-empty array whose element 0
carries a truthy `file_url`. -/
theorem path1_artifact {e mo f0 u : JVal} {files : List JVal}
    (h1 : getF e "module_outputs" = some mo)
    (h2 : getF mo "artifact_files" = some (JVal.arr (f0 :: files)))
    (h3 : getF f0 "file_url" = some u)
    (h4 : truthy u = true) : path1 e = some u := by
  unfold path1 artifactFilesUrl
  rw [h1]
  simp [Option.bind, h2, h3, isNonEmptyArr_cons, arrHead_cons, keep, h4]

/-- Shape of Path 3 once `response.result` is known to be an object. -/
theorem path3_obj {e : JVal} {r : List (String × JVal)}
    (h : (getF e "response").bind (fun x => getF x "result") = some (JVal.obj r)) :
    path3 e =
      (match firstTruthyKey (JVal.obj r) resultKeys with
       | some v => some (some v)
       | none => path3rest r) := by
  unfold path3
  rw [h]

/-- When Paths 1 and 2 fail and Path 3 executes a `return`, the
returned value is the cascade's result. -/
theorem extract_of_path3 {parse : String → Option JVal} {e : JVal} {o : Option JVal}
    (h1 : path1 e = none) (h2 : path2 e = none) (h3 : path3 e = some o) :
    extractImageUrl parse e = o := by
  unfold extractImageUrl
  rw [h1, h2, h3]

/-- When Paths 1 to 4 all fall through, Path 5 decides the cascade. -/
theorem extract_of_path5 {parse : String → Option JVal} {e : JVal}
    (h1 : path1 e = none) (h2 : path2 e = none) (h3 : path3 e = none)
    (h4 : path4 e = none) :
    extractImageUrl parse e = path5 parse e := by
  unfold extractImageUrl
  rw [h1, h2, h3, h4]

/-! ## Claim C1 -/

/-- C1: for every envelope in which `module_outputs.artifact_files` is
a non-empty sequence whose element 0 carries a (truthy) `file_url`,
`extractImageUrl` returns exactly that `file_url`, regardless of what
any lower-priority strategy would also match: the envelope `e` and the
parse oracle are otherwise arbitrary. -/
theorem c1_artifact_priority (parse : String → Option JVal) (e mo f0 u : JVal)
    (files : List JVal)
    (h1 : getF e "module_outputs" = some mo)
    (h2 : getF mo "artifact_files" = some (JVal.arr (f0 :: files)))
    (h3 : getF f0 "file_url" = some u)
    (h4 : truthy u = true) :
    extractImageUrl parse e = some u :=
  extract_of_path1 (path1_artifact h1 h2 h3 h4)

/-- Concrete C1 envelope: strategy 1 applies, and strategies 2, 3 and
4 would each match a different (wrong) value. -/
def envC1 : JVal :=
  JVal.obj [("module_outputs",
              JVal.obj [("artifact_files", JVal.arr [JVal.obj [("file_url", JVal.str "GOOD")]]),
                        ("url", JVal.str "BAD1")]),
            ("response",
              JVal.obj [("result", JVal.obj [("image_url", JVal.str "BAD2")]),
                        ("message", JVal.str "x https://b.com/bad3.png")])]

/-- C1 witness: on `envC1` the decoy matches of the lower strategies
are ignored and the artifact-file URL wins. -/
theorem c1_witness : extractImageUrl parseNone envC1 = some (JVal.str "GOOD") :=
  c1_artifact_priority parseNone envC1
    (JVal.obj [("artifact_files", JVal.arr [JVal.obj [("file_url", JVal.str "GOOD")]]),
               ("url", JVal.str "BAD1")])
    (JVal.obj [("file_url", JVal.str "GOOD")]) (JVal.str "GOOD") [] rfl rfl rfl rfl

/-! ## Claim C2 -/

/-- Concrete C2 envelope: success flag true, no `module_outputs`, the
image only under `response.result.image_url` (extraction strategy 3). -/
def envC2 : JVal :=
  JVal.obj [("success", JVal.bool true),
            ("response", JVal.obj [("result", JVal.obj [("image_url", JVal.str "X")])])]

/-- C2 counterexample: on `envC2` the workflow of `src/unnamed/part_000`
publishes `"X"` while the extraction step of `src/app/page.tsx` fails
with the no-image error, so the two extraction steps are not
equivalent. -/
theorem c2_page_differs :
    pageExtractStep envC2 = ExtractOutcome.failed noImageMsg
    ∧ mainExtractStep parseNone envC2 = ExtractOutcome.published (some (JVal.str "X"))
    ∧ pageExtractStep envC2 ≠ mainExtractStep parseNone envC2 := by
  refine ⟨rfl, rfl, ?_⟩
  intro h
  have h2 : ExtractOutcome.failed noImageMsg
      = ExtractOutcome.published (some (JVal.str "X")) := h
  exact ExtractOutcome.noConfusion h2

/-- C2 (amended): the two extraction steps agree exactly on the
strategy-1 envelopes — `module_outputs.artifact_files` a non-empty
sequence whose element 0 carries a truthy `file_url` — where both
publish that `file_url`; outside that class they can differ, as
`c2_page_differs` shows. -/
theorem c2_agree_on_artifact_files (parse : String → Option JVal) (e mo f0 u : JVal)
    (files : List JVal)
    (h1 : getF e "module_outputs" = some mo)
    (h2 : getF mo "artifact_files" = some (JVal.arr (f0 :: files)))
    (h3 : getF f0 "file_url" = some u)
    (h4 : truthy u = true) :
    pageExtractStep e = ExtractOutcome.published (some u)
    ∧ mainExtractStep parse e = ExtractOutcome.published (some u) := by
  constructor
  · unfold pageExtractStep
    simp [Option.bind, h1, h2, h3, isNonEmptyArr_cons, arrHead_cons]
  · have hp := @extract_of_path1 parse e u (path1_artifact h1 h2 h3 h4)
    unfold mainExtractStep
    rw [hp]

/-- Concrete strategy-1 envelope for the amended C2. -/
def envC2w : JVal :=
  JVal.obj [("success", JVal.bool true),
            ("module_outputs",
              JVal.obj [("artifact_files", JVal.arr [JVal.obj [("file_url", JVal.str "Y")]])])]

/-- C2 witness: on `envC2w` both extraction steps publish `"Y"`. -/
theorem c2_agree_witness :
    pageExtractStep envC2w = ExtractOutcome.published (some (JVal.str "Y"))
    ∧ mainExtractStep parseNone envC2w = ExtractOutcome.published (some (JVal.str "Y")) :=
  c2_agree_on_artifact_files parseNone envC2w
    (JVal.obj [("artifact_files", JVal.arr [JVal.obj [("file_url", JVal.str "Y")]])])
    (JVal.obj [("file_url", JVal.str "Y")]) (JVal.str "Y") [] rfl rfl rfl rfl

/-! ## Claim C3 -/

/-- C3: for every envelope where `module_outputs.artifact_files` is an
empty sequence, no other `module_outputs` field matches (Path 2 falls
through) and `response.result` is a mapping, extraction follows the
`response.result` strategy: (i) the first truthy of the six keys
`image_url, url, image, output_image, generated_image, file_url` in
that literal order is returned; (ii) in particular
`response.result.image_url = "X"` (any non-empty string) is returned
as is; (iii) failing those keys, a non-empty `result.artifact_files`
yields element 0's truthy `file_url`, else its truthy `url`; (iv)
failing that sequence entirely, a nested
`result.module_outputs.artifact_files[0].file_url` hit is returned. -/
theorem c3_result_mapping (parse : String → Option JVal) (e mo : JVal)
    (r : List (String × JVal))
    (h1 : getF e "module_outputs" = some mo)
    (h2 : getF mo "artifact_files" = some (JVal.arr []))
    (h3 : path2 e = none)
    (h4 : (getF e "response").bind (fun x => getF x "result") = some (JVal.obj r)) :
    (∀ v, firstTruthyKey (JVal.obj r) resultKeys = some v → extractImageUrl parse e = some v)
    ∧ (∀ x : String, x ≠ "" → getF (JVal.obj r) "image_url" = some (JVal.str x) →
        extractImageUrl parse e = some (JVal.str x))
    ∧ (firstTruthyKey (JVal.obj r) resultKeys = none →
        ∀ f0 fs, getF (JVal.obj r) "artifact_files" = some (JVal.arr (f0 :: fs)) →
          extractImageUrl parse e = orElseJ (keep (getF f0 "file_url")) (keep (getF f0 "url")))
    ∧ (firstTruthyKey (JVal.obj r) resultKeys = none →
        isNonEmptyArr (getF (JVal.obj r) "artifact_files") = false →
        ∀ v, artifactFilesUrl (getF (JVal.obj r) "module_outputs") = some v →
          extractImageUrl parse e = some v) := by
  have hp1 : path1 e = none := by
    unfold path1 artifactFilesUrl
    rw [h1]
    simp [Option.bind, h2, isNonEmptyArr_nil]
  refine ⟨?_, ?_, ?_, ?_⟩
  · intro v hk
    refine extract_of_path3 hp1 h3 ?_
    rw [path3_obj h4, hk]
  · intro x hx himg
    have hk : firstTruthyKey (JVal.obj r) resultKeys = some (JVal.str x) := by
      simp [resultKeys, firstTruthyKey, himg, keep, truthy, bne_iff_ne, hx]
    refine extract_of_path3 hp1 h3 ?_
    rw [path3_obj h4, hk]
  · intro hk f0 fs haf
    refine extract_of_path3 hp1 h3 ?_
    rw [path3_obj h4, hk]
    simp only [path3rest, path3arr, haf, isNonEmptyArr_cons, arrHead_cons, if_true]
    simp [Option.bind]
  · intro hk hna v hmo
    refine extract_of_path3 hp1 h3 ?_
    rw [path3_obj h4, hk]
    simp only [path3rest, path3arr, hna]
    simp [path3mo, hmo]

/-- Concrete C3 envelope: empty `artifact_files`, the image only under
`response.result.image_url`. -/
def envC3 : JVal :=
  JVal.obj [("module_outputs", JVal.obj [("artifact_files", JVal.arr [])]),
            ("response", JVal.obj [("result", JVal.obj [("image_url", JVal.str "X")])])]

/-- C3 witness: on `envC3` extraction returns `"X"`. -/
theorem c3_witness : extractImageUrl parseNone envC3 = some (JVal.str "X") :=
  (c3_result_mapping parseNone envC3 (JVal.obj [("artifact_files", JVal.arr [])])
    [("image_url", JVal.str "X")] rfl rfl rfl rfl).2.1 "X" (by decide) rfl

/-! ## Claim C4 -/

/-- C4: for every envelope in which strategies 1 to 3 find nothing
(Paths 1-3 fall through) and `response.message` is a string, whenever
the message contains a match of the image-URL pattern —
`https?://`, a run of characters outside `[\s"'<>]`, a dot, then one
of `png|jpg|jpeg|webp|gif|svg|bmp`, case-insensitively — extraction
returns the first such match. -/
theorem c4_message_url (parse : String → Option JVal) (e : JVal) (s : String)
    (h1 : path1 e = none) (h2 : path2 e = none) (h3 : path3 e = none)
    (hm : (getF e "response").bind (fun x => getF x "message") = some (JVal.str s)) :
    ∀ m, urlScan banned4 extList4 s = some m → extractImageUrl parse e = some (JVal.str m) := by
  intro m hscan
  have hs : (s != "") = true := by
    rcases eq_or_ne s "" with h | h
    · subst h
      have hnone : urlScan banned4 extList4 "" = none := rfl
      rw [hnone] at hscan
      exact Option.noConfusion hscan
    · simpa [bne_iff_ne] using h
  have hp4 : path4 e = some (JVal.str m) := by
    unfold path4
    rw [hm]
    simp [hs, hscan]
  unfold extractImageUrl
  rw [h1, h2, h3, hp4]

/-- Concrete C4 envelope: only a `response.message` containing an
image URL. -/
def envC4 : JVal :=
  JVal.obj [("response", JVal.obj [("message", JVal.str "see https://x.com/a.png here")])]

/-- C4 witness: on `envC4` extraction returns the URL embedded in the
message. -/
theorem c4_witness : extractImageUrl parseNone envC4 = some (JVal.str "https://x.com/a.png") :=
  c4_message_url parseNone envC4 "see https://x.com/a.png here" rfl rfl rfl rfl
    "https://x.com/a.png" rfl

/-! ## Claim C5 -/

/-- C5: for every envelope in which strategies 1 to 4 find nothing and
`raw_response` is a non-empty string: when it parses as JSON, the
cascade returns the parsed value's
`module_outputs.artifact_files[0].file_url`, else its
`response.module_outputs.artifact_files[0].file_url`, else null — no
URL-pattern scan runs after a successful parse; when parsing fails,
the cascade returns the URL-pattern scan of the raw string with
extensions `png|jpg|jpeg|webp|gif` only (no `svg`, no `bmp`). -/
theorem c5_raw_response (parse : String → Option JVal) (e : JVal) (s : String)
    (h1 : path1 e = none) (h2 : path2 e = none) (h3 : path3 e = none)
    (h4 : path4 e = none)
    (hraw : getF e "raw_response" = some (JVal.str s)) (hs : s ≠ "") :
    (∀ raw, parse s = some raw →
      extractImageUrl parse e =
        orElseJ (artifactFilesUrl (getF raw "module_outputs"))
                (artifactFilesUrl ((getF raw "response").bind (fun x => getF x "module_outputs"))))
    ∧ (parse s = none →
      extractImageUrl parse e = (urlScan banned5 extList5 s).map JVal.str) := by
  have hext : extractImageUrl parse e = path5 parse e := extract_of_path5 h1 h2 h3 h4
  have hbs : (s != "") = true := by simpa [bne_iff_ne] using hs
  constructor
  · intro raw hp
    rw [hext]
    unfold path5
    rw [hraw]
    simp [hbs, hp]
  · intro hp
    rw [hext]
    unfold path5
    rw [hraw]
    simp [hbs, hp]

/-- Concrete C5 envelope: only a non-JSON `raw_response` containing an
image URL. -/
def envC5 : JVal :=
  JVal.obj [("raw_response", JVal.str "notjson http://a.com/x.png")]

/-- C5 witness: with a failing parse oracle on `envC5`, extraction
falls back to the restricted URL-pattern scan and returns the URL. -/
theorem c5_witness : extractImageUrl parseNone envC5 = some (JVal.str "http://a.com/x.png") := by
  have h := (c5_raw_response parseNone envC5 "notjson http://a.com/x.png"
    rfl rfl rfl rfl rfl (by decide)).2 rfl
  exact h.trans rfl

/-! ## Claim C6 -/

/-- C6: when no extraction strategy matches — every path falls through
or, in Path 3's `artifact_files` branch, the explicit `null` is
returned — `extractImageUrl` returns `none` (the embedding of `null`,
distinguishable from any string); and a non-`null` result is always a
truthy value, in particular never the empty string. -/
theorem c6_null_not_empty (parse : String → Option JVal) (e : JVal) :
    (path1 e = none → path2 e = none → (path3 e = none ∨ path3 e = some none) →
      path4 e = none → path5 parse e = none → extractImageUrl parse e = none)
    ∧ (∀ v, extractImageUrl parse e = some v → truthy v = true ∧ v ≠ JVal.str "") := by
  constructor
  · intro h1 h2 h3 h4 h5
    rcases h3 with h3 | h3
    · unfold extractImageUrl
      rw [h1, h2, h3, h4, h5]
    · unfold extractImageUrl
      rw [h1, h2, h3]
  · intro v h
    refine ⟨extractImageUrl_truthy h, ?_⟩
    intro hv
    have ht := extractImageUrl_truthy h
    rw [hv] at ht
    simp [truthy] at ht

/-- C6 witness: the empty envelope has no recognizable field anywhere
and extraction returns `null`. -/
theorem c6_witness : extractImageUrl parseNone (JVal.obj []) = none :=
  (c6_null_not_empty parseNone (JVal.obj [])).1 rfl rfl (Or.inl rfl) rfl rfl

/-! ## Claim C7 -/

/-- C7: for every envelope whose `response.result` is a mapping `r`,
`extractTransformationDetails` derives the description from the first
truthy of `transformation_description, description, text, message`,
the styles from `style_elements_applied, styles, elements`, and the
colors from `color_palette_used, colors, palette`, each defaulting to
the empty string, serializing non-string values via `JSON.stringify`
rather than dropping them; it returns that record — always carrying
all three fields — iff at least one derived value is truthy, and
otherwise behaves as the message fallback (which never reproduces an
all-empty mapping record). -/
theorem c7_details_mapping (e : JVal) (r : List (String × JVal))
    (h : (getF e "response").bind (fun x => getF x "result") = some (JVal.obj r)) :
    ((truthy (jsOrChain (JVal.obj r) descKeys) || truthy (jsOrChain (JVal.obj r) styleKeys)
        || truthy (jsOrChain (JVal.obj r) colorKeys)) = true →
      extractTransformationDetails e =
        some ⟨serializeIfNeeded (jsOrChain (JVal.obj r) descKeys),
              serializeIfNeeded (jsOrChain (JVal.obj r) styleKeys),
              serializeIfNeeded (jsOrChain (JVal.obj r) colorKeys)⟩)
    ∧ ((truthy (jsOrChain (JVal.obj r) descKeys) || truthy (jsOrChain (JVal.obj r) styleKeys)
        || truthy (jsOrChain (JVal.obj r) colorKeys)) = false →
      extractTransformationDetails e = detailsFallback e) := by
  have hfr : detailsFromResult e =
      (if truthy (jsOrChain (JVal.obj r) descKeys) || truthy (jsOrChain (JVal.obj r) styleKeys)
          || truthy (jsOrChain (JVal.obj r) colorKeys) then
        some ⟨serializeIfNeeded (jsOrChain (JVal.obj r) descKeys),
              serializeIfNeeded (jsOrChain (JVal.obj r) styleKeys),
              serializeIfNeeded (jsOrChain (JVal.obj r) colorKeys)⟩
      else none) := by
    unfold detailsFromResult
    rw [h]
  constructor
  · intro ht
    unfold extractTransformationDetails
    rw [hfr, if_pos ht]
  · intro hf
    unfold extractTransformationDetails
    rw [hfr, if_neg (by simp [hf])]

/-- Concrete C7 envelope: `response.result = { styles: "a, b" }`. -/
def envC7 : JVal :=
  JVal.obj [("response", JVal.obj [("result", JVal.obj [("styles", JVal.str "a, b")])])]

/-- C7 witness: on `envC7` the record is returned with the styles
field populated and the other two empty. -/
theorem c7_witness :
    extractTransformationDetails envC7
      = some ⟨JVal.str "", JVal.str "a, b", JVal.str ""⟩ := by
  have h := (c7_details_mapping envC7 [("styles", JVal.str "a, b")] rfl).1 rfl
  exact h.trans rfl

/-! ## Claim C8 -/

/-- C8: for every envelope where the `response.result` mapping path
yields no record (in particular where no derived field is truthy, or
there is no result mapping at all), `extractTransformationDetails`
returns a record carrying `response.message` as the description and
empty strings for the other two fields whenever a truthy
`response.message` is present, and returns `null` when there is no
`response.message` at all. -/
theorem c8_details_fallback (e : JVal)
    (h : detailsFromResult e = none) :
    (∀ m, (getF e "response").bind (fun x => getF x "message") = some m → truthy m = true →
      extractTransformationDetails e = some ⟨m, JVal.str "", JVal.str ""⟩)
    ∧ ((getF e "response").bind (fun x => getF x "message") = none →
      extractTransformationDetails e = none) := by
  have hext : extractTransformationDetails e = detailsFallback e := by
    unfold extractTransformationDetails
    rw [h]
  constructor
  · intro m hm ht
    rw [hext]
    unfold detailsFallback
    rw [hm]
    simp [ht]
  · intro hm
    rw [hext]
    unfold detailsFallback
    rw [hm]

/-- Concrete C8 envelope: no result mapping, only a message. -/
def envC8 : JVal :=
  JVal.obj [("response", JVal.obj [("message", JVal.str "hi")])]

/-- C8 witness: on `envC8` the message becomes the description; on the
empty envelope (no result mapping, no message) the result is `null`. -/
theorem c8_witness :
    extractTransformationDetails envC8 = some ⟨JVal.str "hi", JVal.str "", JVal.str ""⟩
    ∧ extractTransformationDetails (JVal.obj []) = none :=
  ⟨(c8_details_fallback envC8 rfl).1 (JVal.str "hi") rfl rfl,
   (c8_details_fallback (JVal.obj []) rfl).2 rfl⟩

/-! ## Claim C9 -/

/-- C9: for every transform run in which the upload collaborator
reports success but `asset_ids` is empty or not a sequence, the
workflow goes directly to the failed state carrying the
collaborator-supplied error message (or the generic fallback when the
supplied one is absent or falsy), and the agent collaborator is never
invoked: the outcome is the same for every agent function. -/
theorem c9_upload_empty_assets (parse : String → Option JVal) (agent : String → JVal → JVal)
    (styleNote : String) (up : JVal)
    (h1 : otruthy (getF up "success") = true)
    (h2 : isNonEmptyArr (getF up "asset_ids") = false) :
    handleTransform parse agent true styleNote up
      = TransformOutcome.failed (jsOrStr (getF up "error") uploadFailMsg)
    ∧ ∀ agent2, handleTransform parse agent true styleNote up
        = handleTransform parse agent2 true styleNote up := by
  have key : ∀ ag : String → JVal → JVal, handleTransform parse ag true styleNote up
      = TransformOutcome.failed (jsOrStr (getF up "error") uploadFailMsg) := by
    intro ag
    unfold handleTransform
    simp [h1, h2]
  exact ⟨key agent, fun agent2 => (key agent).trans (key agent2).symm⟩

/-- Concrete C9 upload result: success with empty `asset_ids` and a
supplied error message. -/
def envUp9 : JVal :=
  JVal.obj [("success", JVal.bool true), ("asset_ids", JVal.arr []),
            ("error", JVal.str "bad upload")]

/-- An arbitrary concrete agent collaborator for the C9 witness. -/
def agentStub : String → JVal → JVal := fun _ _ => JVal.obj [("success", JVal.bool true)]

/-- C9 witness: on `envUp9` the run fails with the supplied message,
for any agent. -/
theorem c9_witness :
    handleTransform parseNone agentStub true "" envUp9
      = TransformOutcome.failed (JVal.str "bad upload") := by
  have h := (c9_upload_empty_assets parseNone agentStub "" envUp9 rfl rfl).1
  exact h.trans rfl

/-! ## Claim C10 -/

/-- C10: a whitespace-only style directive produces exactly the same
outgoing agent message as an empty directive — the fixed brand-style
instruction alone — and therefore the same workflow outcome against
any collaborators; a non-blank directive is appended only after
trimming. -/
theorem c10_blank_style_note (styleNote : String) :
    (jsTrim styleNote = "" → buildMessage styleNote = buildMessage "")
    ∧ (jsTrim styleNote = "" →
        ∀ (parse : String → Option JVal) (agent : String → JVal → JVal) (up : JVal),
          handleTransform parse agent true styleNote up = handleTransform parse agent true "" up)
    ∧ (jsTrim styleNote ≠ "" →
        buildMessage styleNote = brandMessage ++ " Additional style direction: " ++ jsTrim styleNote)
    ∧ buildMessage "" = brandMessage := by
  have hblank : jsTrim styleNote = "" → buildMessage styleNote = buildMessage "" := by
    intro h
    unfold buildMessage
    rw [h]
    rfl
  refine ⟨hblank, ?_, ?_, rfl⟩
  · intro h parse agent up
    unfold handleTransform
    rw [hblank h]
  · intro h
    unfold buildMessage
    rw [if_pos (by simpa [bne_iff_ne] using h)]

/-- C10 witness: a three-space directive yields the bare instruction,
and a padded directive is appended trimmed. -/
theorem c10_witness :
    buildMessage "   " = buildMessage ""
    ∧ buildMessage " x " = brandMessage ++ " Additional style direction: " ++ "x" := by
  constructor
  · exact (c10_blank_style_note "   ").1 (by decide)
  · have h := (c10_blank_style_note " x ").2.2.1 (by decide)
    exact h.trans rfl
